import Mathlib

/-!
# button_webserver.c: the TCP receive callback of the button / temperature page

A shallow embedding of `tcp_server_recv` and `tcp_server_accept` from
`src/button_webserver.c`.

* Calls into lwIP, the Pico SDK and libc are recorded, in program order, in the
  `trace` of a `World`; what they return is read from an `Env`.
* `malloc` may return `NULL`.  The source stores through the returned pointer
  without a check, so on `NULL` the callback has no defined result: the model
  stops with `Except.error`, carrying the world reached.
* `float` arithmetic is taken exactly, over `ℚ` (rounding of the binary32
  operations is not modelled).
* The format string contains ASCII only, so the bytes of the response are
  modelled as a `List Char`.
-/

namespace ButtonWebserver

/-! ## Constants of the source and of the headers it uses -/

/-- Pin of button A: `#define BTA 5`. -/
def BTA : ℕ := 5

/-- Pin of button B: `#define BTB 6`. -/
def BTB : ℕ := 6

/-- lwIP `ERR_OK`. -/
def ERR_OK : ℤ := 0

/-- lwIP `TCP_WRITE_FLAG_COPY`. -/
def TCP_WRITE_FLAG_COPY : ℕ := 1

/-! ## Data model -/

/-- The part of lwIP's `struct pbuf` the callback reads: the bytes of the first
segment (`payload`); `len` is their number. -/
structure pbuf where
  payload : List ℕ
  deriving DecidableEq, Repr

/-- Field `p->len`. -/
def pbuf.len (p : pbuf) : ℕ := p.payload.length

/-- Receive callbacks that can be registered with `tcp_recv`; `NULL` is
`Option.none`. -/
inductive RecvFn where
  | tcp_server_recv
  deriving DecidableEq, Repr

/-- One call that leaves the callback, with its arguments (and its result where
the callback uses it). -/
inductive Effect where
  | tcp_close (tpcb : ℕ)
  | tcp_recv (tpcb : ℕ) (recv : Option RecvFn)
  | malloc (size : ℕ) (result : Option ℕ)
  | printf (text : List Char)
  | adc_select_input (input : ℕ)
  | adc_read (input : ℕ) (result : ℕ)
  | gpio_get (gpio : ℕ) (result : Bool)
  | tcp_write (tpcb : ℕ) (data : List Char) (len : ℕ) (apiflags : ℕ)
  | tcp_output (tpcb : ℕ)
  | free (ptr : ℕ)
  | pbuf_free (p : pbuf)
  deriving DecidableEq, Repr

/-- What the surroundings answer during one run of the callback. -/
structure Env where
  /-- result of a conversion on the selected ADC input -/
  adc_sample : ℕ → ℕ
  /-- level of a GPIO pin, `true` = high -/
  gpio_level : ℕ → Bool
  /-- address returned by `malloc` for a size, `none` = `NULL` -/
  malloc_result : ℕ → Option ℕ

/-- State the callback acts on. -/
structure World where
  /-- input selected in the ADC multiplexer -/
  adc_input : ℕ
  /-- addresses of the live `malloc` blocks -/
  heap : List ℕ
  /-- receive callback registered for each connection -/
  recv_fn : ℕ → Option RecvFn
  /-- calls made so far, oldest first -/
  trace : List Effect

/-- Append one call to the trace. -/
def emit (e : Effect) (w : World) : World :=
  { w with trace := w.trace ++ [e] }

/-! ## The external calls -/

def tcp_close (tpcb : ℕ) (w : World) : World :=
  emit (.tcp_close tpcb) w

def tcp_recv (tpcb : ℕ) (recv : Option RecvFn) (w : World) : World :=
  emit (.tcp_recv tpcb recv) { w with recv_fn := Function.update w.recv_fn tpcb recv }

def malloc (env : Env) (size : ℕ) (w : World) : Option ℕ × World :=
  match env.malloc_result size with
  | none => (none, emit (.malloc size none) w)
  | some a => (some a, emit (.malloc size (some a)) { w with heap := a :: w.heap })

def free (ptr : ℕ) (w : World) : World :=
  emit (.free ptr) { w with heap := w.heap.erase ptr }

def adc_select_input (input : ℕ) (w : World) : World :=
  emit (.adc_select_input input) { w with adc_input := input }

def adc_read (env : Env) (w : World) : ℕ × World :=
  (env.adc_sample w.adc_input, emit (.adc_read w.adc_input (env.adc_sample w.adc_input)) w)

def gpio_get (env : Env) (gpio : ℕ) (w : World) : Bool × World :=
  (env.gpio_level gpio, emit (.gpio_get gpio (env.gpio_level gpio)) w)

def tcp_write (tpcb : ℕ) (data : List Char) (len : ℕ) (apiflags : ℕ) (w : World) : World :=
  emit (.tcp_write tpcb data len apiflags) w

def tcp_output (tpcb : ℕ) (w : World) : World :=
  emit (.tcp_output tpcb) w

def pbuf_free (p : pbuf) (w : World) : World :=
  emit (.pbuf_free p) w

def printf (text : List Char) (w : World) : World :=
  emit (.printf text) w

/-! ## libc formatting -/

/-- Nearest integer to `x * 100` for `x ≥ 0`, ties to even: the rounding of
`%.2f`. -/
def round_hundredths (x : ℚ) : ℕ :=
  let whole := ⌊x * 100⌋₊
  let rest := x * 100 - whole
  if 1 / 2 < rest then whole + 1
  else if rest < 1 / 2 then whole
  else if whole % 2 = 1 then whole + 1 else whole

/-- Conversion `%.2f` of a finite value: sign, integer part, point, two
digits. -/
def format_2f (x : ℚ) : List Char :=
  let n := round_hundredths |x|
  (if x < 0 then ['-'] else []) ++
    (Nat.toDigits 10 (n / 100) ++ ['.', Nat.digitChar (n % 100 / 10), Nat.digitChar (n % 10)])

/-- Argument of a formatted print. -/
inductive Arg where
  | str (s : List Char)
  | float (x : ℚ)

/-- Expansion of a format string with the conversions the source uses, `%s`
and `%.2f`. -/
def vformat : List Char → List Arg → List Char
  | '%' :: 's' :: rest, Arg.str s :: args => s ++ vformat rest args
  | '%' :: '.' :: '2' :: 'f' :: rest, Arg.float x :: args => format_2f x ++ vformat rest args
  | c :: rest, args => c :: vformat rest args
  | [], _ => []

/-- Content of the destination of `snprintf(buf, size, ...)` before its
terminator: at most `size - 1` characters of the expansion. -/
def snprintf (size : ℕ) (expansion : List Char) : List Char :=
  expansion.take (size - 1)

/-- The characters of a C string: those before the first NUL. -/
def c_str (buf : List Char) : List Char :=
  buf.takeWhile (fun c => c != Char.ofNat 0)

/-- Length of a C string, `strlen`. -/
def strlen (buf : List Char) : ℕ :=
  (c_str buf).length

/-! ## The callback -/

/-- Source: `const float conversion_factor = 3.3f / (1 << 12);` -/
def conversion_factor : ℚ := (3.3 : ℚ) / ((1 <<< 12 : ℕ) : ℚ)

/-- Source: `float temperature = 27.0f - ((raw_value * conversion_factor) - 0.706f) / 0.001721f;` -/
def temperature (raw_value : ℕ) : ℚ :=
  27.0 - ((raw_value * conversion_factor) - 0.706) / 0.001721

/-- The format string of the `snprintf` call (lines 48 to 70 of the source). -/
def html_format : List Char :=
  ("HTTP/1.1 200 OK\r\n" ++
   "Content-Type: text/html\r\n" ++
   "\r\n" ++
   "<!DOCTYPE html>\n" ++
   "<html>\n" ++
   "<head>\n" ++
   "<title>Button and Temperature Read</title>\n" ++
   "<style>\n" ++
   "body \x7b font-family: Arial, sans-serif; text-align: center; margin-top: 50px; \x7d\n" ++
   "h1 \x7b font-size: 48px; margin-bottom: 20px; \x7d\n" ++
   "button \x7b font-size: 32px; padding: 20px 40px; border-radius: 10px; color: white; \x7d\n" ++
   "#btnA \x7b background-color: %s; \x7d\n" ++
   "#btnB \x7b background-color: %s; \x7d\n" ++
   ".temperature \x7b font-size: 36px; margin-top: 30px; color: #333; \x7d\n" ++
   "</style>\n" ++
   "</head>\n" ++
   "<body>\n" ++
   "<h1>Button and Temperature real time monitoring</h1>\n" ++
   "<button id='btnA'>Button A</button>\n" ++
   "<button id='btnB'>Button B</button>\n" ++
   "<p class='temperature'>Temperatura: %.2f &deg;C</p>\n" ++
   "</body>\n" ++
   "</html>\n").toList

/-- Source: `button_a ? "green" : "red"`. -/
def colour (pressed : Bool) : List Char :=
  if pressed then "green".toList else "red".toList

/-- Expansion of the format for the three arguments of the `snprintf` call. -/
def html_expansion (button_a button_b : Bool) (temperature : ℚ) : List Char :=
  vformat html_format [Arg.str (colour button_a), Arg.str (colour button_b), Arg.float temperature]

/-- The C string `request` after `memcpy(request, p->payload, p->len)` and
`request[p->len] = 0`: the copied payload bytes up to the first NUL. -/
def request_text (p : pbuf) : List Char :=
  c_str ((p.payload.take p.len ++ [0]).map Char.ofNat)

/-- Source: `static err_t tcp_server_recv(void *arg, struct tcp_pcb *tpcb, struct pbuf *p, err_t err)`.
`Except.error w`: `malloc` returned `NULL` in world `w`; the source then writes
through the pointer, so the run has no defined continuation. -/
def tcp_server_recv (env : Env) (_arg : ℕ) (tpcb : ℕ) (p : Option pbuf) (_err : ℤ)
    (w : World) : Except World (ℤ × World) :=
  match p with
  | none =>
    let w := tcp_close tpcb w
    let w := tcp_recv tpcb none w
    .ok (ERR_OK, w)
  | some p =>
    match malloc env (p.len + 1) w with
    | (none, w) => .error w
    | (some request, w) =>
      let w := printf (vformat "Request: %s\n".toList [Arg.str (request_text p)]) w
      let w := adc_select_input 4 w
      let (sample, w) := adc_read env w
      let raw_value := sample % 2 ^ 16
      let temperature := temperature raw_value
      let (level_a, w) := gpio_get env BTA w
      let button_a := level_a == false
      let (level_b, w) := gpio_get env BTB w
      let button_b := level_b == false
      let html := snprintf 1024 (html_expansion button_a button_b temperature)
      let w := tcp_write tpcb html (strlen html) TCP_WRITE_FLAG_COPY w
      let w := tcp_output tpcb w
      let w := free request w
      let w := pbuf_free p w
      .ok (ERR_OK, w)

/-- Source: `static err_t tcp_server_accept(void *arg, struct tcp_pcb *newpcb, err_t err)`. -/
def tcp_server_accept (_arg : ℕ) (newpcb : ℕ) (_err : ℤ) (w : World) : ℤ × World :=
  let w := tcp_recv newpcb (some RecvFn.tcp_server_recv) w
  (ERR_OK, w)

/-! ## Delivery of receive events by the stack -/

/-- One receive event on connection `tpcb`: lwIP calls the callback registered
with `tcp_recv`, if there is one; without one the application is not called. -/
def deliver (env : Env) (tpcb : ℕ) (p : Option pbuf) (w : World) : Except World World :=
  match w.recv_fn tpcb with
  | some RecvFn.tcp_server_recv =>
    match tcp_server_recv env 0 tpcb p ERR_OK w with
    | .ok (_, w) => .ok w
    | .error w => .error w
  | none => .ok w

/-- A finite sequence of receive events on one connection, each with the
surroundings current at that event. -/
def deliver_all (tpcb : ℕ) : List (Env × Option pbuf) → World → Except World World
  | [], w => .ok w
  | (env, p) :: rest, w =>
    match deliver env tpcb p w with
    | .ok w => deliver_all tpcb rest w
    | .error w => .error w

/-! ## Reading a trace -/

/-- The `adc_read` calls of a trace: selected input and result. -/
def adc_reads (tr : List Effect) : List (ℕ × ℕ) :=
  tr.filterMap fun e => match e with
    | .adc_read input result => some (input, result)
    | _ => none

/-- The `gpio_get` calls of a trace: pin and level. -/
def gpio_gets (tr : List Effect) : List (ℕ × Bool) :=
  tr.filterMap fun e => match e with
    | .gpio_get gpio result => some (gpio, result)
    | _ => none

/-- The `tcp_write` calls of a trace: connection, buffer, length, flags. -/
def tcp_writes (tr : List Effect) : List (ℕ × List Char × ℕ × ℕ) :=
  tr.filterMap fun e => match e with
    | .tcp_write tpcb data len apiflags => some (tpcb, data, len, apiflags)
    | _ => none

/-- The `tcp_output` calls of a trace. -/
def tcp_outputs (tr : List Effect) : List ℕ :=
  tr.filterMap fun e => match e with
    | .tcp_output tpcb => some tpcb
    | _ => none

/-- The `tcp_close` calls of a trace. -/
def tcp_closes (tr : List Effect) : List ℕ :=
  tr.filterMap fun e => match e with
    | .tcp_close tpcb => some tpcb
    | _ => none

/-- The `tcp_recv` calls of a trace: connection and callback. -/
def tcp_recvs (tr : List Effect) : List (ℕ × Option RecvFn) :=
  tr.filterMap fun e => match e with
    | .tcp_recv tpcb recv => some (tpcb, recv)
    | _ => none

/-- The `malloc` calls of a trace: size and result. -/
def mallocs (tr : List Effect) : List (ℕ × Option ℕ) :=
  tr.filterMap fun e => match e with
    | .malloc size result => some (size, result)
    | _ => none

/-- The `free` calls of a trace. -/
def frees (tr : List Effect) : List ℕ :=
  tr.filterMap fun e => match e with
    | .free ptr => some ptr
    | _ => none

/-- The `pbuf_free` calls of a trace. -/
def pbuf_frees (tr : List Effect) : List pbuf :=
  tr.filterMap fun e => match e with
    | .pbuf_free p => some p
    | _ => none

/-! ## Pieces of the expanded format -/

/-- The expansion up to the colour of button A. -/
def html_head : List Char :=
  ("HTTP/1.1 200 OK\r\n" ++
   "Content-Type: text/html\r\n" ++
   "\r\n" ++
   "<!DOCTYPE html>\n" ++
   "<html>\n" ++
   "<head>\n" ++
   "<title>Button and Temperature Read</title>\n" ++
   "<style>\n" ++
   "body \x7b font-family: Arial, sans-serif; text-align: center; margin-top: 50px; \x7d\n" ++
   "h1 \x7b font-size: 48px; margin-bottom: 20px; \x7d\n" ++
   "button \x7b font-size: 32px; padding: 20px 40px; border-radius: 10px; color: white; \x7d\n" ++
   "#btnA \x7b background-color: ").toList

/-- Between the two colours. -/
def html_between : List Char :=
  "; \x7d\n#btnB \x7b background-color: ".toList

/-- From the colour of button B to the temperature. -/
def html_body : List Char :=
  ("; \x7d\n" ++
   ".temperature \x7b font-size: 36px; margin-top: 30px; color: #333; \x7d\n" ++
   "</style>\n" ++
   "</head>\n" ++
   "<body>\n" ++
   "<h1>Button and Temperature real time monitoring</h1>\n" ++
   "<button id='btnA'>Button A</button>\n" ++
   "<button id='btnB'>Button B</button>\n" ++
   "<p class='temperature'>Temperatura: ").toList

/-- After the temperature. -/
def html_tail : List Char :=
  " &deg;C</p>\n</body>\n</html>\n".toList

/-- The `html` buffer the callback builds from the readings in `env`. -/
def html_of (env : Env) : List Char :=
  snprintf 1024 (html_expansion (env.gpio_level BTA == false) (env.gpio_level BTB == false)
    (temperature (env.adc_sample 4 % 2 ^ 16)))

/-- The calls of one run of the callback on a packet `p`, the request copy
being at `request`. -/
def recv_calls (env : Env) (tpcb : ℕ) (p : pbuf) (request : ℕ) : List Effect :=
  [Effect.malloc (p.len + 1) (some request),
   Effect.printf (vformat "Request: %s\n".toList [Arg.str (request_text p)]),
   Effect.adc_select_input 4,
   Effect.adc_read 4 (env.adc_sample 4),
   Effect.gpio_get BTA (env.gpio_level BTA),
   Effect.gpio_get BTB (env.gpio_level BTB),
   Effect.tcp_write tpcb (html_of env) (strlen (html_of env)) TCP_WRITE_FLAG_COPY,
   Effect.tcp_output tpcb,
   Effect.free request,
   Effect.pbuf_free p]

/-! ## Concrete surroundings used in the examples -/

/-- A fresh world: nothing selected, allocated, registered or called. -/
def World.init : World :=
  { adc_input := 0, heap := [], recv_fn := fun _ => none, trace := [] }

/-- Surroundings with the given readings in which `malloc` returns block 64. -/
def env_with (sample : ℕ) (level_a level_b : Bool) : Env :=
  { adc_sample := fun _ => sample
    gpio_level := fun gpio => if gpio = BTA then level_a else level_b
    malloc_result := fun _ => some 64 }

/-- Surroundings in which the heap is exhausted: `malloc` returns `NULL`. -/
def env_out_of_memory : Env :=
  { adc_sample := fun _ => 876
    gpio_level := fun _ => true
    malloc_result := fun _ => none }

/-- The request `GET / HTTP/1.1\r\n\r\n`. -/
def get_request : pbuf :=
  ⟨"GET / HTTP/1.1\r\n\r\n".toList.map Char.toNat⟩

/-- The single byte `0x00`. -/
def nul_request : pbuf :=
  ⟨[0]⟩

/-! # Auxiliary facts -/

/-! ## The expanded format -/

set_option maxRecDepth 100000 in
theorem html_expansion_eq (button_a button_b : Bool) (t : ℚ) :
    html_expansion button_a button_b t =
      html_head ++ (colour button_a ++ (html_between ++ (colour button_b ++
        (html_body ++ (format_2f t ++ html_tail))))) := by
  rfl

set_option maxRecDepth 100000 in
theorem html_head_length : html_head.length = 358 := by decide

set_option maxRecDepth 100000 in
theorem html_between_length : html_between.length = 30 := by decide

set_option maxRecDepth 100000 in
theorem html_body_length : html_body.length = 254 := by decide

set_option maxRecDepth 100000 in
theorem html_tail_length : html_tail.length = 28 := by decide

theorem colour_length_le (pressed : Bool) : (colour pressed).length ≤ 5 := by
  cases pressed <;> decide

/-! ## Decimal digits -/

theorem digitChar_isDigit (d : ℕ) (h : d < 10) : (Nat.digitChar d).isDigit = true := by
  interval_cases d <;> rfl

theorem toDigitsCore_isDigit (fuel : ℕ) :
    ∀ (n : ℕ) (ds : List Char), (∀ c ∈ ds, c.isDigit = true) →
      ∀ c ∈ Nat.toDigitsCore 10 fuel n ds, c.isDigit = true := by
  induction fuel with
  | zero => intro n ds h; simpa [Nat.toDigitsCore] using h
  | succ f ih =>
    intro n ds h
    have hd : ∀ c ∈ Nat.digitChar (n % 10) :: ds, c.isDigit = true := by
      intro c hc
      rcases List.mem_cons.mp hc with rfl | hc
      · exact digitChar_isDigit _ (Nat.mod_lt _ (by norm_num))
      · exact h c hc
    simp only [Nat.toDigitsCore]
    split
    · exact hd
    · exact ih _ _ hd

theorem toDigits_isDigit (n : ℕ) : ∀ c ∈ Nat.toDigits 10 n, c.isDigit = true :=
  toDigitsCore_isDigit _ _ _ (by simp)

theorem toDigits_length_le (n k : ℕ) (hk : 0 < k) (h : n < 10 ^ k) :
    (Nat.toDigits 10 n).length ≤ k :=
  Nat.toDigitsCore_length 10 (by norm_num) (n + 1) n k h hk

/-! ## Rounding to hundredths -/

theorem round_hundredths_le (x : ℚ) : round_hundredths x ≤ ⌊x * 100⌋₊ + 1 := by
  unfold round_hundredths
  simp only
  split_ifs <;> omega

theorem round_hundredths_near (x : ℚ) (hx : 0 ≤ x) :
    |(round_hundredths x : ℚ) - x * 100| ≤ 1 / 2 := by
  have h0 : (0 : ℚ) ≤ x * 100 := by positivity
  have h1 : (⌊x * 100⌋₊ : ℚ) ≤ x * 100 := Nat.floor_le h0
  have h2 : x * 100 < ⌊x * 100⌋₊ + 1 := Nat.lt_floor_add_one _
  unfold round_hundredths
  simp only
  split_ifs with ha hb hc
  · rw [abs_le]; push_cast; constructor <;> linarith
  · rw [abs_le]; constructor <;> linarith
  · rw [abs_le]; push_cast; constructor <;> linarith
  · rw [abs_le]; constructor <;> linarith

theorem round_hundredths_eq (x : ℚ) (n : ℕ) (hx : 0 ≤ x) (h1 : (n : ℚ) - 1 / 2 < x * 100)
    (h2 : x * 100 < n + 1 / 2) : round_hundredths x = n := by
  have hnear := round_hundredths_near x hx
  rw [abs_le] at hnear
  have hlt : ((round_hundredths x : ℤ) : ℚ) < ((n : ℤ) : ℚ) + 1 := by push_cast; linarith
  have hgt : ((n : ℤ) : ℚ) < ((round_hundredths x : ℤ) : ℚ) + 1 := by push_cast; linarith
  have a : (round_hundredths x : ℤ) < n + 1 := by exact_mod_cast hlt
  have b : (n : ℤ) < round_hundredths x + 1 := by exact_mod_cast hgt
  omega

/-! ## The conversion `%.2f` -/

theorem format_2f_length_le (x : ℚ) (k : ℕ) (hk : 0 < k) (hx : |x| ≤ 10 ^ k - 1) :
    (format_2f x).length ≤ k + 4 := by
  have hp : 1 ≤ 10 ^ k := Nat.one_le_pow _ _ (by norm_num)
  have hfl : ⌊|x| * 100⌋₊ ≤ (10 ^ k - 1) * 100 := by
    apply Nat.floor_le_of_le
    push_cast [Nat.cast_sub hp]
    linarith
  have hr := round_hundredths_le |x|
  have hn : round_hundredths |x| / 100 < 10 ^ k := by
    generalize (10 : ℕ) ^ k = P at hp hfl ⊢
    omega
  have hd := toDigits_length_le _ k hk hn
  unfold format_2f
  simp only [List.length_append, List.length_cons, List.length_nil]
  split_ifs <;> simp <;> omega

theorem format_2f_ne_nul (x : ℚ) : ∀ c ∈ format_2f x, c ≠ Char.ofNat 0 := by
  intro c hc
  unfold format_2f at hc
  simp only [List.mem_append, List.mem_cons, List.mem_singleton] at hc
  have hdig : ∀ c : Char, c.isDigit = true → c ≠ Char.ofNat 0 := by
    intro c h e
    rw [e] at h
    exact absurd h (by decide)
  rcases hc with hc | hc | hc | hc | hc | hc
  · split_ifs at hc
    · rcases List.mem_singleton.mp hc with rfl
      decide
    · simp at hc
  · exact hdig c (toDigits_isDigit _ c hc)
  · rw [hc]; decide
  · rw [hc]; exact hdig _ (digitChar_isDigit _ (by omega))
  · rw [hc]; exact hdig _ (digitChar_isDigit _ (by omega))
  · simp at hc

/-! ## The `html` buffer -/

set_option maxRecDepth 100000 in
theorem html_head_ne_nul : ∀ c ∈ html_head, c ≠ Char.ofNat 0 := by decide

set_option maxRecDepth 100000 in
theorem html_between_ne_nul : ∀ c ∈ html_between, c ≠ Char.ofNat 0 := by decide

set_option maxRecDepth 100000 in
theorem html_body_ne_nul : ∀ c ∈ html_body, c ≠ Char.ofNat 0 := by decide

set_option maxRecDepth 100000 in
theorem html_tail_ne_nul : ∀ c ∈ html_tail, c ≠ Char.ofNat 0 := by decide

theorem colour_ne_nul (pressed : Bool) : ∀ c ∈ colour pressed, c ≠ Char.ofNat 0 := by
  cases pressed <;> decide

theorem html_expansion_ne_nul (button_a button_b : Bool) (t : ℚ) :
    ∀ c ∈ html_expansion button_a button_b t, c ≠ Char.ofNat 0 := by
  intro c hc
  rw [html_expansion_eq] at hc
  simp only [List.mem_append] at hc
  rcases hc with h | h | h | h | h | h | h
  · exact html_head_ne_nul c h
  · exact colour_ne_nul _ c h
  · exact html_between_ne_nul c h
  · exact colour_ne_nul _ c h
  · exact html_body_ne_nul c h
  · exact format_2f_ne_nul _ c h
  · exact html_tail_ne_nul c h

theorem c_str_eq_self (buf : List Char) (h : ∀ c ∈ buf, c ≠ Char.ofNat 0) : c_str buf = buf := by
  unfold c_str
  rw [List.takeWhile_eq_self_iff]
  intro c hc
  simpa using h c hc

theorem html_expansion_length_le (button_a button_b : Bool) (t : ℚ) (k : ℕ) (hk : 0 < k)
    (ht : |t| ≤ 10 ^ k - 1) : (html_expansion button_a button_b t).length ≤ 684 + k := by
  have h1 := colour_length_le button_a
  have h2 := colour_length_le button_b
  have h3 := format_2f_length_le t k hk ht
  rw [html_expansion_eq]
  simp only [List.length_append, html_head_length, html_between_length, html_body_length,
    html_tail_length]
  omega

theorem snprintf_eq_self (expansion : List Char) (h : expansion.length ≤ 1023) :
    snprintf 1024 expansion = expansion := by
  unfold snprintf
  exact List.take_of_length_le (by omega)

theorem strlen_snprintf_html (button_a button_b : Bool) (t : ℚ) :
    strlen (snprintf 1024 (html_expansion button_a button_b t)) =
      (snprintf 1024 (html_expansion button_a button_b t)).length := by
  unfold strlen
  rw [c_str_eq_self]
  intro c hc
  exact html_expansion_ne_nul button_a button_b t c (List.mem_of_mem_take hc)

theorem strlen_html_of (env : Env) : strlen (html_of env) = (html_of env).length :=
  strlen_snprintf_html _ _ _

/-! ## The temperature of a 16-bit sample -/

theorem conversion_factor_eq : conversion_factor = 33 / 40960 := by
  have h : (1 <<< 12 : ℕ) = 4096 := by decide
  unfold conversion_factor
  rw [h]
  norm_num

theorem temperature_eq (raw_value : ℕ) :
    temperature raw_value = 27 - ((raw_value : ℚ) * 33 / 40960 - 353 / 500) * (1000000 / 1721) := by
  unfold temperature
  rw [conversion_factor_eq]
  norm_num
  ring

theorem abs_temperature_le (raw_value : ℕ) (h : raw_value < 2 ^ 16) :
    |temperature raw_value| ≤ 10 ^ 5 - 1 := by
  have h0 : (0 : ℚ) ≤ raw_value := Nat.cast_nonneg _
  have h1 : (raw_value : ℚ) ≤ 65535 := by
    have : raw_value ≤ 65535 := by omega
    exact_mod_cast this
  rw [temperature_eq, abs_le]
  constructor <;> linarith

theorem abs_temperature_le_of_12bit (raw_value : ℕ) (h : raw_value ≤ 4095) :
    |temperature raw_value| ≤ 10 ^ 4 - 1 := by
  have h0 : (0 : ℚ) ≤ raw_value := Nat.cast_nonneg _
  have h1 : (raw_value : ℚ) ≤ 4095 := by exact_mod_cast h
  rw [temperature_eq, abs_le]
  constructor <;> linarith

theorem html_of_eq (env : Env) :
    html_of env = html_expansion (env.gpio_level BTA == false) (env.gpio_level BTB == false)
      (temperature (env.adc_sample 4 % 2 ^ 16)) := by
  unfold html_of
  apply snprintf_eq_self
  have := html_expansion_length_le (env.gpio_level BTA == false) (env.gpio_level BTB == false)
    (temperature (env.adc_sample 4 % 2 ^ 16)) 5 (by norm_num)
    (by exact_mod_cast abs_temperature_le _ (Nat.mod_lt _ (by norm_num)))
  omega

/-! ## Runs of the callback -/

theorem tcp_server_recv_null (env : Env) (arg tpcb : ℕ) (err : ℤ) (w : World) :
    tcp_server_recv env arg tpcb none err w =
      .ok (ERR_OK, { adc_input := w.adc_input, heap := w.heap,
                     recv_fn := Function.update w.recv_fn tpcb none,
                     trace := w.trace ++ [Effect.tcp_close tpcb, Effect.tcp_recv tpcb none] }) := by
  simp [tcp_server_recv, tcp_close, tcp_recv, emit]

theorem tcp_server_recv_packet (env : Env) (arg tpcb : ℕ) (p : pbuf) (err : ℤ) (w : World)
    (request : ℕ) (h : env.malloc_result (p.len + 1) = some request) :
    tcp_server_recv env arg tpcb (some p) err w =
      .ok (ERR_OK, { adc_input := 4, heap := w.heap, recv_fn := w.recv_fn,
                     trace := w.trace ++ recv_calls env tpcb p request }) := by
  simp [tcp_server_recv, malloc, h, printf, adc_select_input, adc_read, gpio_get, tcp_write,
    tcp_output, free, pbuf_free, emit, recv_calls, html_of]

theorem tcp_server_recv_no_memory (env : Env) (arg tpcb : ℕ) (p : pbuf) (err : ℤ) (w : World)
    (h : env.malloc_result (p.len + 1) = none) :
    tcp_server_recv env arg tpcb (some p) err w =
      .error { w with trace := w.trace ++ [Effect.malloc (p.len + 1) none] } := by
  simp [tcp_server_recv, malloc, h, emit]

/-! ## Where the substituted texts sit -/

set_option maxRecDepth 100000 in
theorem html_head_rule_a : "#btnA \x7b background-color: ".toList <:+ html_head := by decide

theorem html_between_rule_b : html_between = "; \x7d\n#btnB \x7b background-color: ".toList := rfl

set_option maxRecDepth 100000 in
theorem html_body_rule_end : "; \x7d\n".toList <+: html_body := by decide

set_option maxRecDepth 100000 in
theorem html_head_status :
    html_head = "HTTP/1.1 200 OK\r\nContent-Type: text/html\r\n\r\n".toList ++
      ("<!DOCTYPE html>\n<html>".toList ++ html_head.drop 66) := by decide

set_option maxRecDepth 100000 in
theorem html_tail_end : html_tail = html_tail.take 20 ++ "</html>\n".toList := by decide

set_option maxRecDepth 100000 in
theorem html_body_line : html_body = html_body.take 241 ++ "Temperatura: ".toList := by decide

set_option maxRecDepth 100000 in
theorem html_tail_degree : html_tail = " &deg;C".toList ++ html_tail.drop 7 := by decide

theorem temperature_text_occurs (button_a button_b : Bool) (t : ℚ) :
    ("Temperatura: ".toList ++ (format_2f t ++ " &deg;C".toList)) <:+:
      html_expansion button_a button_b t := by
  refine ⟨html_head ++ (colour button_a ++ (html_between ++ (colour button_b ++
    html_body.take 241))), html_tail.drop 7, ?_⟩
  rw [html_expansion_eq]
  nth_rewrite 2 [html_body_line]
  nth_rewrite 2 [html_tail_degree]
  simp only [List.append_assoc]

/-! ## Values of `%.2f` -/

theorem format_2f_of_round (x : ℚ) (n : ℕ) (h : round_hundredths |x| = n) :
    format_2f x = (if x < 0 then ['-'] else []) ++
      (Nat.toDigits 10 (n / 100) ++ ['.', Nat.digitChar (n % 100 / 10), Nat.digitChar (n % 10)]) := by
  unfold format_2f
  rw [h]

theorem format_2f_scenario : format_2f 25.37 = "25.37".toList := by
  have h : round_hundredths |(25.37 : ℚ)| = 2537 :=
    round_hundredths_eq _ 2537 (abs_nonneg _) (by rw [abs_of_nonneg] <;> norm_num)
      (by rw [abs_of_nonneg] <;> norm_num)
  rw [format_2f_of_round _ _ h]
  have hs : ¬ ((25.37 : ℚ) < 0) := by norm_num
  rw [if_neg hs]
  decide

theorem format_2f_near_mid_scale (t : ℚ) (h : |t - temperature 2048| ≤ 1 / 1000) :
    format_2f t = "-521.52".toList := by
  rw [temperature_eq, abs_le] at h
  norm_num at h
  have hneg : t < 0 := by linarith
  have h' : round_hundredths |t| = 52152 :=
    round_hundredths_eq _ 52152 (abs_nonneg _) (by rw [abs_of_neg hneg]; norm_num; linarith)
      (by rw [abs_of_neg hneg]; norm_num; linarith)
  rw [format_2f_of_round _ _ h', if_pos hneg]
  decide

theorem toDigits_ne_nil (n : ℕ) : Nat.toDigits 10 n ≠ [] := by
  unfold Nat.toDigits
  simp only [Nat.toDigitsCore]
  split
  · simp
  · intro h
    have := Nat.toDigitsCore_lens_eq 10 n (n / 10) (Nat.digitChar (n % 10)) []
    rw [h] at this
    simp at this

theorem scenario_html :
    snprintf 1024 (html_expansion true false 25.37) =
      html_head ++ ("green".toList ++ (html_between ++ ("red".toList ++
        (html_body ++ ("25.37".toList ++ html_tail))))) := by
  rw [snprintf_eq_self, html_expansion_eq, format_2f_scenario]
  · rfl
  · have := html_expansion_length_le true false 25.37 2 (by norm_num)
      (by rw [abs_of_nonneg] <;> norm_num)
    omega

theorem format_2f_mid_scale : format_2f (temperature 2048) = "-521.52".toList :=
  format_2f_near_mid_scale _ (by simp)

theorem temperature_text_mid_scale :
    "Temperatura: -521.52 &deg;C".toList =
      "Temperatura: ".toList ++ ("-521.52".toList ++ " &deg;C".toList) := by
  decide

/-! ## Delivery of a sequence of events -/

theorem tcp_writes_append (a b : List Effect) :
    tcp_writes (a ++ b) = tcp_writes a ++ tcp_writes b := by
  simp [tcp_writes, List.filterMap_append]

theorem deliver_packet (env : Env) (tpcb : ℕ) (p : pbuf) (w : World) (request : ℕ)
    (hreg : w.recv_fn tpcb = some RecvFn.tcp_server_recv)
    (h : env.malloc_result (p.len + 1) = some request) :
    deliver env tpcb (some p) w =
      .ok { adc_input := 4, heap := w.heap, recv_fn := w.recv_fn,
            trace := w.trace ++ recv_calls env tpcb p request } := by
  unfold deliver
  rw [hreg]
  simp only
  rw [tcp_server_recv_packet env 0 tpcb p ERR_OK w request h]

theorem deliver_null (env : Env) (tpcb : ℕ) (w : World)
    (hreg : w.recv_fn tpcb = some RecvFn.tcp_server_recv) :
    deliver env tpcb none w =
      .ok { adc_input := w.adc_input, heap := w.heap,
            recv_fn := Function.update w.recv_fn tpcb none,
            trace := w.trace ++ [Effect.tcp_close tpcb, Effect.tcp_recv tpcb none] } := by
  unfold deliver
  rw [hreg]
  simp only
  rw [tcp_server_recv_null env 0 tpcb ERR_OK w]

theorem deliver_all_unregistered (tpcb : ℕ) (events : List (Env × Option pbuf)) (w : World)
    (hreg : w.recv_fn tpcb = none) : deliver_all tpcb events w = .ok w := by
  induction events with
  | nil => rfl
  | cons e rest ih =>
    obtain ⟨env, p⟩ := e
    simp only [deliver_all, deliver, hreg]
    exact ih

theorem deliver_all_writes (tpcb : ℕ) (events : List (Env × Option pbuf)) :
    ∀ w : World, w.recv_fn tpcb = some RecvFn.tcp_server_recv →
      (∀ e ∈ events, ∀ p, e.2 = some p → ∃ request, e.1.malloc_result (p.len + 1) = some request) →
      ∃ w1, deliver_all tpcb events w = .ok w1 ∧
        (tcp_writes w1.trace).length =
          (tcp_writes w.trace).length + (events.takeWhile fun e => e.2.isSome).length := by
  induction events with
  | nil => intro w _ _; exact ⟨w, rfl, rfl⟩
  | cons e rest ih =>
    intro w hreg hm
    obtain ⟨env, p⟩ := e
    cases p with
    | none =>
      simp only [deliver_all, deliver_null env tpcb w hreg]
      rw [deliver_all_unregistered tpcb rest _ (by simp)]
      refine ⟨_, rfl, ?_⟩
      simp [tcp_writes_append, tcp_writes]
    | some p =>
      obtain ⟨request, hreq⟩ := hm (env, some p) (List.mem_cons_self _ _) p rfl
      simp only [deliver_all, deliver_packet env tpcb p w request hreg hreq]
      obtain ⟨w1, h1, h2⟩ := ih
        { adc_input := 4, heap := w.heap, recv_fn := w.recv_fn,
          trace := w.trace ++ recv_calls env tpcb p request } hreg
        (fun e he => hm e (List.mem_cons_of_mem _ he))
      refine ⟨w1, h1, ?_⟩
      rw [h2, tcp_writes_append]
      simp [recv_calls, tcp_writes]
      omega

/-! # The claims -/

/-! ## C1: a packet is answered once -/

/-- C1, as stated, fails when the request copy cannot be allocated: with the
heap exhausted, the callback run on the one-byte packet `0x00` does not return
`ERR_OK` (it stops at the failed `malloc`; no snapshot is read, nothing is
written). -/
theorem recv_packet_out_of_memory_no_result :
    (¬ ∃ w, tcp_server_recv env_out_of_memory 0 1 (some nul_request) ERR_OK World.init
        = .ok (ERR_OK, w)) ∧
    ∃ w, tcp_server_recv env_out_of_memory 0 1 (some nul_request) ERR_OK World.init
        = .error w ∧
      adc_reads w.trace = [] ∧ gpio_gets w.trace = [] ∧ tcp_writes w.trace = [] := by
  rw [tcp_server_recv_no_memory _ _ _ _ _ _ rfl]
  refine ⟨?_, _, rfl, rfl, rfl, rfl⟩
  rintro ⟨w, h⟩
  cases h

/-- C1, amended: for every receive event with a non-null packet buffer whose
request copy `malloc` grants, `tcp_server_recv` returns `ERR_OK` and its calls
contain exactly one `adc_read` (on input 4), exactly one `gpio_get` of pin 5 and
one of pin 6, exactly one `tcp_write`, of the response rendered from that
snapshot and of its full length, immediately followed by the only `tcp_output`,
and no `tcp_close`. -/
theorem recv_packet_replies_once (env : Env) (arg tpcb : ℕ) (p : pbuf) (err : ℤ) (w : World)
    (request : ℕ) (h : env.malloc_result (p.len + 1) = some request) :
    ∃ w1 calls, tcp_server_recv env arg tpcb (some p) err w = .ok (ERR_OK, w1) ∧
      w1.trace = w.trace ++ calls ∧
      adc_reads calls = [(4, env.adc_sample 4)] ∧
      gpio_gets calls = [(5, env.gpio_level 5), (6, env.gpio_level 6)] ∧
      tcp_writes calls =
        [(tpcb, html_of env, (html_of env).length, TCP_WRITE_FLAG_COPY)] ∧
      html_of env = html_expansion (env.gpio_level 5 == false) (env.gpio_level 6 == false)
        (temperature (env.adc_sample 4 % 2 ^ 16)) ∧
      tcp_outputs calls = [tpcb] ∧
      [Effect.tcp_write tpcb (html_of env) (html_of env).length TCP_WRITE_FLAG_COPY,
        Effect.tcp_output tpcb] <:+: calls ∧
      tcp_closes calls = [] := by
  refine ⟨_, recv_calls env tpcb p request, tcp_server_recv_packet env arg tpcb p err w request h,
    rfl, rfl, rfl, ?_, html_of_eq env, rfl, ?_, rfl⟩
  · simp [recv_calls, tcp_writes, strlen_html_of]
  · refine ⟨(recv_calls env tpcb p request).take 6, (recv_calls env tpcb p request).drop 8, ?_⟩
    simp [recv_calls, strlen_html_of]

/-- C1, amended, on the two requests of the spec (`GET / HTTP/1.1` and the byte
`0x00`), with sample 876, button A pressed and button B released. -/
theorem recv_packet_replies_once_witness :
    ((env_with 876 false true).malloc_result (get_request.len + 1) = some 64 ∧
      ∃ w1 calls, tcp_server_recv (env_with 876 false true) 0 1 (some get_request) ERR_OK
          World.init = .ok (ERR_OK, w1) ∧
        w1.trace = World.init.trace ++ calls ∧
        adc_reads calls = [(4, (env_with 876 false true).adc_sample 4)] ∧
        gpio_gets calls = [(5, (env_with 876 false true).gpio_level 5),
          (6, (env_with 876 false true).gpio_level 6)] ∧
        tcp_writes calls = [(1, html_of (env_with 876 false true),
          (html_of (env_with 876 false true)).length, TCP_WRITE_FLAG_COPY)] ∧
        html_of (env_with 876 false true) =
          html_expansion ((env_with 876 false true).gpio_level 5 == false)
            ((env_with 876 false true).gpio_level 6 == false)
            (temperature ((env_with 876 false true).adc_sample 4 % 2 ^ 16)) ∧
        tcp_outputs calls = [1] ∧
        [Effect.tcp_write 1 (html_of (env_with 876 false true))
            (html_of (env_with 876 false true)).length TCP_WRITE_FLAG_COPY,
          Effect.tcp_output 1] <:+: calls ∧
        tcp_closes calls = []) ∧
    ∃ w1, tcp_server_recv (env_with 876 false true) 0 1 (some nul_request) ERR_OK
        World.init = .ok (ERR_OK, w1) :=
  ⟨⟨rfl, recv_packet_replies_once (env_with 876 false true) 0 1 get_request ERR_OK World.init 64
      rfl⟩,
    (recv_packet_replies_once (env_with 876 false true) 0 1 nul_request ERR_OK World.init 64
      rfl).imp fun _ h => h.elim fun _ h => h.1⟩

/-! ## C2: a null packet closes the connection -/

/-- C2: for every receive event with a null packet buffer, `tcp_server_recv`
returns `ERR_OK` after exactly the calls `tcp_close(tpcb)` and
`tcp_recv(tpcb, NULL)`: no `tcp_write`, no `tcp_output`, no `adc_read`, no
`gpio_get`; the connection is closed and its receive callback deregistered. -/
theorem recv_null_closes (env : Env) (arg tpcb : ℕ) (err : ℤ) (w : World) :
    ∃ w1 calls, tcp_server_recv env arg tpcb none err w = .ok (ERR_OK, w1) ∧
      w1.trace = w.trace ++ calls ∧
      calls = [Effect.tcp_close tpcb, Effect.tcp_recv tpcb none] ∧
      tcp_writes calls = [] ∧ tcp_outputs calls = [] ∧
      adc_reads calls = [] ∧ gpio_gets calls = [] ∧
      tcp_closes calls = [tpcb] ∧ tcp_recvs calls = [(tpcb, none)] ∧
      w1.recv_fn tpcb = none := by
  refine ⟨_, _, tcp_server_recv_null env arg tpcb err w, rfl, rfl, rfl, rfl, rfl, rfl, rfl, rfl, ?_⟩
  simp

/-! ## C3: the temperature formula -/

/-- C3: for every raw sample `r` in `[0, 4095]`, the temperature the callback
computes from it (over exact rationals, float rounding left aside) is
`27.0 - ((r * 3.3 / 4096) - 0.706) / 0.001721`, and the conversion factor
`3.3 / (1 << 12)` is `3.3 / 4096`. -/
theorem temperature_formula (r : ℕ) (h : r ≤ 4095) :
    conversion_factor = 3.3 / 4096 ∧
    temperature (r % 2 ^ 16) = 27.0 - (((r : ℚ) * 3.3 / 4096) - 0.706) / 0.001721 := by
  have hr : r % 2 ^ 16 = r := Nat.mod_eq_of_lt (by omega)
  rw [hr, temperature_eq, conversion_factor_eq]
  constructor
  · norm_num
  · norm_num
    ring

/-- C3 at the sample 876. -/
theorem temperature_formula_witness :
    876 ≤ 4095 ∧ conversion_factor = 3.3 / 4096 ∧
    temperature (876 % 2 ^ 16) = 27.0 - (((876 : ℕ) : ℚ) * 3.3 / 4096 - 0.706) / 0.001721 :=
  ⟨by decide, temperature_formula 876 (by decide)⟩

/-! ## C4: the colours of the two buttons -/

/-- C4: in the response the callback sends for a packet, for every level of the
two pins and every sample, the text substituted into the `#btnA` rule is
`green` when pin 5 reads low (button A pressed) and `red` otherwise, the text
substituted into the `#btnB` rule is `green` when pin 6 reads low and `red`
otherwise; each depends on its own pin only, the text around them is fixed. -/
theorem response_colours (env : Env) (arg tpcb : ℕ) (p : pbuf) (err : ℤ) (w : World)
    (request : ℕ) (h : env.malloc_result (p.len + 1) = some request) :
    ∃ w1 calls data rest,
      tcp_server_recv env arg tpcb (some p) err w = .ok (ERR_OK, w1) ∧
      w1.trace = w.trace ++ calls ∧
      tcp_writes calls = [(tpcb, data, data.length, TCP_WRITE_FLAG_COPY)] ∧
      data = html_head ++
        ((if env.gpio_level 5 = false then "green".toList else "red".toList) ++
        (html_between ++
        ((if env.gpio_level 6 = false then "green".toList else "red".toList) ++
        (html_body ++ rest)))) ∧
      "green".toList ≠ "red".toList ∧
      "#btnA \x7b background-color: ".toList <:+ html_head ∧
      html_between = "; \x7d\n#btnB \x7b background-color: ".toList ∧
      "; \x7d\n".toList <+: html_body := by
  refine ⟨_, recv_calls env tpcb p request, html_of env,
    format_2f (temperature (env.adc_sample 4 % 2 ^ 16)) ++ html_tail,
    tcp_server_recv_packet env arg tpcb p err w request h, rfl, ?_, ?_, by decide,
    html_head_rule_a, html_between_rule_b, html_body_rule_end⟩
  · simp [recv_calls, tcp_writes, strlen_html_of]
  · rw [html_of_eq, html_expansion_eq]
    simp [colour, BTA, BTB]

/-- C4 for button A pressed and button B released, sample 876. -/
theorem response_colours_witness :
    (env_with 876 false true).malloc_result (get_request.len + 1) = some 64 ∧
    ∃ w1 calls data rest,
      tcp_server_recv (env_with 876 false true) 0 1 (some get_request) ERR_OK World.init
        = .ok (ERR_OK, w1) ∧
      w1.trace = World.init.trace ++ calls ∧
      tcp_writes calls = [(1, data, data.length, TCP_WRITE_FLAG_COPY)] ∧
      data = html_head ++
        ((if (env_with 876 false true).gpio_level 5 = false then "green".toList
          else "red".toList) ++
        (html_between ++
        ((if (env_with 876 false true).gpio_level 6 = false then "green".toList
          else "red".toList) ++
        (html_body ++ rest)))) ∧
      "green".toList ≠ "red".toList ∧
      "#btnA \x7b background-color: ".toList <:+ html_head ∧
      html_between = "; \x7d\n#btnB \x7b background-color: ".toList ∧
      "; \x7d\n".toList <+: html_body :=
  ⟨rfl, response_colours (env_with 876 false true) 0 1 get_request ERR_OK World.init 64 rfl⟩

/-! ## C5: status line, header and document -/

/-- C5: for every level of the two pins and every sample (so for every sample
in `[0, 4095]`), the bytes the callback passes to `tcp_write` are
`HTTP/1.1 200 OK\r\nContent-Type: text/html\r\n\r\n` followed by a document that
starts with `<!DOCTYPE html>\n<html>` and ends with `</html>\n`. -/
theorem response_status_and_document (env : Env) (arg tpcb : ℕ) (p : pbuf) (err : ℤ)
    (w : World) (request : ℕ) (h : env.malloc_result (p.len + 1) = some request) :
    ∃ w1 calls data doc,
      tcp_server_recv env arg tpcb (some p) err w = .ok (ERR_OK, w1) ∧
      w1.trace = w.trace ++ calls ∧
      tcp_writes calls = [(tpcb, data, data.length, TCP_WRITE_FLAG_COPY)] ∧
      data = "HTTP/1.1 200 OK\r\nContent-Type: text/html\r\n\r\n".toList ++ doc ∧
      "<!DOCTYPE html>\n<html>".toList <+: doc ∧
      "</html>\n".toList <:+ doc := by
  refine ⟨_, recv_calls env tpcb p request, html_of env,
    "<!DOCTYPE html>\n<html>".toList ++ (html_head.drop 66 ++
      (colour (env.gpio_level BTA == false) ++ (html_between ++
        (colour (env.gpio_level BTB == false) ++ (html_body ++
          (format_2f (temperature (env.adc_sample 4 % 2 ^ 16)) ++ html_tail)))))),
    tcp_server_recv_packet env arg tpcb p err w request h, rfl, ?_, ?_, ⟨_, rfl⟩, ?_⟩
  · simp [recv_calls, tcp_writes, strlen_html_of]
  · rw [html_of_eq, html_expansion_eq]
    nth_rewrite 1 [html_head_status]
    simp only [List.append_assoc]
  · refine ⟨"<!DOCTYPE html>\n<html>".toList ++ (html_head.drop 66 ++
      (colour (env.gpio_level BTA == false) ++ (html_between ++
        (colour (env.gpio_level BTB == false) ++ (html_body ++
          (format_2f (temperature (env.adc_sample 4 % 2 ^ 16)) ++ html_tail.take 20)))))), ?_⟩
    nth_rewrite 2 [html_tail_end]
    simp only [List.append_assoc]

/-- C5 for the sample 876 with both buttons released. -/
theorem response_status_and_document_witness :
    (env_with 876 true true).malloc_result (get_request.len + 1) = some 64 ∧
    ∃ w1 calls data doc,
      tcp_server_recv (env_with 876 true true) 0 1 (some get_request) ERR_OK World.init
        = .ok (ERR_OK, w1) ∧
      w1.trace = World.init.trace ++ calls ∧
      tcp_writes calls = [(1, data, data.length, TCP_WRITE_FLAG_COPY)] ∧
      data = "HTTP/1.1 200 OK\r\nContent-Type: text/html\r\n\r\n".toList ++ doc ∧
      "<!DOCTYPE html>\n<html>".toList <+: doc ∧
      "</html>\n".toList <:+ doc :=
  ⟨rfl,
    response_status_and_document (env_with 876 true true) 0 1 get_request ERR_OK World.init 64
      rfl⟩

/-! ## C6: the temperature line -/

set_option maxRecDepth 100000 in
/-- C6: for every snapshot temperature `t` in the range of a finite `float`, the
text `%.2f` produces is `t` in decimal rounded to hundredths: an optional sign,
the digits of the integer part, a point and exactly two digits; the response
contains `Temperatura: `, that text, a space, the degree symbol (written as the
HTML character reference `&deg;`) and `C`.  In the end-to-end scenario (button A
pressed, button B released, `t = 25.37`) the response contains
`#btnA { background-color: green; }`, `#btnB { background-color: red; }` and the
temperature line with `25.37 &deg;C`. -/
theorem response_temperature_line (button_a button_b : Bool) (t : ℚ) (ht : |t| ≤ 2 ^ 128) :
    (∃ n : ℕ, |(n : ℚ) / 100 - abs t| ≤ 1 / 200 ∧
      format_2f t = (if t < 0 then ['-'] else []) ++
        (Nat.toDigits 10 (n / 100) ++
          ['.', Nat.digitChar (n % 100 / 10), Nat.digitChar (n % 10)]) ∧
      Nat.toDigits 10 (n / 100) ≠ [] ∧
      (∀ c ∈ Nat.toDigits 10 (n / 100), c.isDigit = true) ∧
      (Nat.digitChar (n % 100 / 10)).isDigit = true ∧
      (Nat.digitChar (n % 10)).isDigit = true) ∧
    ("Temperatura: ".toList ++ (format_2f t ++ " &deg;C".toList)) <:+:
      snprintf 1024 (html_expansion button_a button_b t) ∧
    "#btnA \x7b background-color: green; \x7d".toList <:+:
      snprintf 1024 (html_expansion true false 25.37) ∧
    "#btnB \x7b background-color: red; \x7d".toList <:+:
      snprintf 1024 (html_expansion true false 25.37) ∧
    "<p class='temperature'>Temperatura: 25.37 &deg;C</p>".toList <:+:
      snprintf 1024 (html_expansion true false 25.37) := by
  refine ⟨⟨round_hundredths |t|, ?_, format_2f_of_round t _ rfl, toDigits_ne_nil _,
    toDigits_isDigit _, digitChar_isDigit _ (by omega), digitChar_isDigit _ (by omega)⟩,
    ?_, ?_, ?_, ?_⟩
  · have h := round_hundredths_near |t| (abs_nonneg _)
    rw [abs_le] at h ⊢
    constructor <;> linarith
  · rw [snprintf_eq_self]
    · exact temperature_text_occurs button_a button_b t
    · have := html_expansion_length_le button_a button_b t 39 (by norm_num)
        (le_trans ht (by norm_num))
      omega
  · rw [scenario_html]
    exact ⟨html_head.take 332, html_between.drop 3 ++ ("red".toList ++ (html_body ++
      ("25.37".toList ++ html_tail))), by decide⟩
  · rw [scenario_html]
    exact ⟨html_head ++ ("green".toList ++ html_between.take 4), html_body.drop 3 ++
      ("25.37".toList ++ html_tail), by decide⟩
  · rw [scenario_html]
    exact ⟨html_head ++ ("green".toList ++ (html_between ++ ("red".toList ++
      html_body.take 218))), html_tail.drop 11, by decide⟩

/-- C6 in the end-to-end scenario: button A pressed, button B released,
`t = 25.37`. -/
theorem response_temperature_line_witness :
    |(25.37 : ℚ)| ≤ 2 ^ 128 ∧
    (∃ n : ℕ, |(n : ℚ) / 100 - abs (25.37 : ℚ)| ≤ 1 / 200 ∧
      format_2f 25.37 = (if (25.37 : ℚ) < 0 then ['-'] else []) ++
        (Nat.toDigits 10 (n / 100) ++
          ['.', Nat.digitChar (n % 100 / 10), Nat.digitChar (n % 10)]) ∧
      Nat.toDigits 10 (n / 100) ≠ [] ∧
      (∀ c ∈ Nat.toDigits 10 (n / 100), c.isDigit = true) ∧
      (Nat.digitChar (n % 100 / 10)).isDigit = true ∧
      (Nat.digitChar (n % 10)).isDigit = true) ∧
    ("Temperatura: ".toList ++ (format_2f 25.37 ++ " &deg;C".toList)) <:+:
      snprintf 1024 (html_expansion true false 25.37) ∧
    "#btnA \x7b background-color: green; \x7d".toList <:+:
      snprintf 1024 (html_expansion true false 25.37) ∧
    "#btnB \x7b background-color: red; \x7d".toList <:+:
      snprintf 1024 (html_expansion true false 25.37) ∧
    "<p class='temperature'>Temperatura: 25.37 &deg;C</p>".toList <:+:
      snprintf 1024 (html_expansion true false 25.37) :=
  ⟨by rw [abs_of_nonneg] <;> norm_num,
    response_temperature_line true false 25.37 (by rw [abs_of_nonneg] <;> norm_num)⟩

/-! ## C7: the sample 2048 -/

/-- C7, as stated, fails: for the raw sample 2048 the formula of the source gives
a temperature below -521 (not about 16.04), and the text `%.2f` renders is
`-521.52`, not `16.04`. -/
theorem mid_scale_sample_is_not_16_04 :
    temperature 2048 < -521 ∧
    500 < |temperature 2048 - 16.04| ∧
    format_2f (temperature 2048) = "-521.52".toList ∧
    format_2f (temperature 2048) ≠ "16.04".toList := by
  refine ⟨?_, ?_, format_2f_mid_scale, ?_⟩
  · rw [temperature_eq]; norm_num
  · rw [temperature_eq, abs_of_neg] <;> norm_num
  · rw [format_2f_mid_scale]; decide

/-- C7, amended: for the raw sample 2048 the converted voltage is 1.65, the
computed temperature is about -521.52 degrees Celsius (within 0.005), every
value within 0.001 of it is rendered as `-521.52`, and the response the
callback sends contains the temperature line with the text `-521.52`. -/
theorem mid_scale_sample (env : Env) (arg tpcb : ℕ) (p : pbuf) (err : ℤ) (w : World)
    (request : ℕ) (h : env.malloc_result (p.len + 1) = some request)
    (hs : env.adc_sample 4 = 2048) :
    ((2048 : ℕ) : ℚ) * conversion_factor = 1.65 ∧
    |temperature 2048 - (-521.52)| < 0.005 ∧
    (∀ t : ℚ, |t - temperature 2048| ≤ 1 / 1000 → format_2f t = "-521.52".toList) ∧
    ∃ w1 calls data,
      tcp_server_recv env arg tpcb (some p) err w = .ok (ERR_OK, w1) ∧
      w1.trace = w.trace ++ calls ∧
      tcp_writes calls = [(tpcb, data, data.length, TCP_WRITE_FLAG_COPY)] ∧
      "Temperatura: -521.52 &deg;C".toList <:+: data := by
  refine ⟨?_, ?_, format_2f_near_mid_scale, _, recv_calls env tpcb p request, html_of env,
    tcp_server_recv_packet env arg tpcb p err w request h, rfl, ?_, ?_⟩
  · rw [conversion_factor_eq]; norm_num
  · rw [temperature_eq, abs_lt]; norm_num
  · simp [recv_calls, tcp_writes, strlen_html_of]
  · have h1 := temperature_text_occurs (env.gpio_level BTA == false)
      (env.gpio_level BTB == false) (temperature 2048)
    rw [format_2f_mid_scale, ← temperature_text_mid_scale] at h1
    rw [html_of_eq, hs]
    exact h1

/-- C7, amended, with both buttons released. -/
theorem mid_scale_sample_witness :
    (env_with 2048 true true).malloc_result (get_request.len + 1) = some 64 ∧
    (env_with 2048 true true).adc_sample 4 = 2048 ∧
    ((2048 : ℕ) : ℚ) * conversion_factor = 1.65 ∧
    |temperature 2048 - (-521.52)| < 0.005 ∧
    (∀ t : ℚ, |t - temperature 2048| ≤ 1 / 1000 → format_2f t = "-521.52".toList) ∧
    ∃ w1 calls data,
      tcp_server_recv (env_with 2048 true true) 0 1 (some get_request) ERR_OK World.init
        = .ok (ERR_OK, w1) ∧
      w1.trace = World.init.trace ++ calls ∧
      tcp_writes calls = [(1, data, data.length, TCP_WRITE_FLAG_COPY)] ∧
      "Temperatura: -521.52 &deg;C".toList <:+: data :=
  ⟨rfl, rfl,
    mid_scale_sample (env_with 2048 true true) 0 1 get_request ERR_OK World.init 64 rfl rfl⟩

/-! ## C8: responses on one connection -/

/-- C8, as stated, fails: on a connection registered by `tcp_server_accept`, two
receive events with non-empty payloads cause two `tcp_write` calls, so more than
one response is transmitted. -/
theorem two_packets_two_responses :
    ∃ w1, deliver_all 1
        [(env_with 876 true true, some get_request), (env_with 876 true true, some nul_request)]
        (tcp_server_accept 0 1 ERR_OK World.init).2 = .ok w1 ∧
      (tcp_writes w1.trace).length = 2 ∧ ¬ (tcp_writes w1.trace).length ≤ 1 := by
  obtain ⟨w1, h1, h2⟩ := deliver_all_writes 1
    [(env_with 876 true true, some get_request), (env_with 876 true true, some nul_request)]
    (tcp_server_accept 0 1 ERR_OK World.init).2 (by simp [tcp_server_accept, tcp_recv, emit])
    (by
      intro e he p _
      simp only [List.mem_cons, List.mem_singleton, List.not_mem_nil, or_false] at he
      rcases he with rfl | rfl <;> exact ⟨64, rfl⟩)
  refine ⟨w1, h1, ?_⟩
  have h3 : (tcp_writes (tcp_server_accept 0 1 ERR_OK World.init).2.trace).length = 0 := rfl
  rw [h3] at h2
  simp at h2
  omega

/-- C8, amended: for every connection and every finite sequence of receive
events delivered after `tcp_server_accept` registered the callback (the request
copies being granted), one response is transmitted for each non-empty event that
precedes the first empty event and none afterwards: the number of `tcp_write`
calls added is the number of those events.  The callback keeps no Answered
state. -/
theorem responses_per_connection (tpcb : ℕ) (events : List (Env × Option pbuf)) (w : World)
    (h : ∀ e ∈ events, ∀ p, e.2 = some p →
      ∃ request, e.1.malloc_result (p.len + 1) = some request) :
    ∃ w1, deliver_all tpcb events (tcp_server_accept 0 tpcb ERR_OK w).2 = .ok w1 ∧
      (tcp_writes w1.trace).length =
        (tcp_writes w.trace).length + (events.takeWhile fun e => e.2.isSome).length := by
  obtain ⟨w1, h1, h2⟩ := deliver_all_writes tpcb events (tcp_server_accept 0 tpcb ERR_OK w).2
    (by simp [tcp_server_accept, tcp_recv, emit]) h
  refine ⟨w1, h1, ?_⟩
  rw [h2]
  simp [tcp_server_accept, tcp_recv, emit, tcp_writes_append, tcp_writes]

/-- C8, amended, on the events packet, packet, close, packet: two responses. -/
theorem responses_per_connection_witness :
    (∀ e ∈ [(env_with 876 true true, some get_request), (env_with 876 false true, some nul_request),
        (env_with 876 true true, none), (env_with 876 true true, some get_request)],
      ∀ p, e.2 = some p → ∃ request, e.1.malloc_result (p.len + 1) = some request) ∧
    ∃ w1, deliver_all 1
        [(env_with 876 true true, some get_request), (env_with 876 false true, some nul_request),
          (env_with 876 true true, none), (env_with 876 true true, some get_request)]
        (tcp_server_accept 0 1 ERR_OK World.init).2 = .ok w1 ∧
      (tcp_writes w1.trace).length = (tcp_writes World.init.trace).length +
        ([(env_with 876 true true, some get_request), (env_with 876 false true, some nul_request),
          (env_with 876 true true, none),
          (env_with 876 true true, some get_request)].takeWhile fun e => e.2.isSome).length :=
  ⟨fun e he p _ => by
      simp only [List.mem_cons, List.mem_singleton, List.not_mem_nil, or_false] at he
      rcases he with rfl | rfl | rfl | rfl <;> exact ⟨64, rfl⟩,
    responses_per_connection 1 _ World.init (fun e he p _ => by
      simp only [List.mem_cons, List.mem_singleton, List.not_mem_nil, or_false] at he
      rcases he with rfl | rfl | rfl | rfl <;> exact ⟨64, rfl⟩)⟩

/-! ## C9: the response fits the buffer -/

/-- C9: for every level of the two pins and every raw sample in `[0, 4095]`, the
full expansion of the format is at most 1023 bytes long, so `snprintf` with the
1024-byte buffer stores it whole, and the callback passes it to `tcp_write` with
its full length. -/
theorem response_fits_buffer (env : Env) (arg tpcb : ℕ) (p : pbuf) (err : ℤ) (w : World)
    (request : ℕ) (h : env.malloc_result (p.len + 1) = some request)
    (hr : env.adc_sample 4 ≤ 4095) :
    ∃ w1 calls full,
      full = html_expansion (env.gpio_level 5 == false) (env.gpio_level 6 == false)
        (temperature (env.adc_sample 4)) ∧
      full.length ≤ 1023 ∧
      snprintf 1024 full = full ∧
      tcp_server_recv env arg tpcb (some p) err w = .ok (ERR_OK, w1) ∧
      w1.trace = w.trace ++ calls ∧
      tcp_writes calls = [(tpcb, full, full.length, TCP_WRITE_FLAG_COPY)] := by
  have hmod : env.adc_sample 4 % 2 ^ 16 = env.adc_sample 4 := Nat.mod_eq_of_lt (by omega)
  have hlen := html_expansion_length_le (env.gpio_level 5 == false) (env.gpio_level 6 == false)
    (temperature (env.adc_sample 4)) 4 (by norm_num)
    (by exact_mod_cast abs_temperature_le_of_12bit _ hr)
  have hfull : html_of env = html_expansion (env.gpio_level 5 == false)
      (env.gpio_level 6 == false) (temperature (env.adc_sample 4)) := by
    rw [html_of_eq, hmod]; rfl
  refine ⟨_, recv_calls env tpcb p request, _, rfl, by omega, snprintf_eq_self _ (by omega),
    tcp_server_recv_packet env arg tpcb p err w request h, rfl, ?_⟩
  rw [← hfull]
  simp [recv_calls, tcp_writes, strlen_html_of]

/-- C9 at the largest sample, 4095, with both buttons pressed. -/
theorem response_fits_buffer_witness :
    (env_with 4095 false false).malloc_result (get_request.len + 1) = some 64 ∧
    (env_with 4095 false false).adc_sample 4 ≤ 4095 ∧
    ∃ w1 calls full,
      full = html_expansion ((env_with 4095 false false).gpio_level 5 == false)
        ((env_with 4095 false false).gpio_level 6 == false)
        (temperature ((env_with 4095 false false).adc_sample 4)) ∧
      full.length ≤ 1023 ∧
      snprintf 1024 full = full ∧
      tcp_server_recv (env_with 4095 false false) 0 1 (some get_request) ERR_OK World.init
        = .ok (ERR_OK, w1) ∧
      w1.trace = World.init.trace ++ calls ∧
      tcp_writes calls = [(1, full, full.length, TCP_WRITE_FLAG_COPY)] :=
  ⟨rfl, by decide,
    response_fits_buffer (env_with 4095 false false) 0 1 get_request ERR_OK World.init 64 rfl
      (by decide)⟩

/-! ## C10: the buffers of one run -/

/-- C10, as stated, fails when `malloc` returns `NULL`: the run on a non-null
packet stops at the failed allocation, so no request copy is allocated, and
neither `free` nor `pbuf_free` is called. -/
theorem recv_packet_out_of_memory_no_release :
    ∃ w1, tcp_server_recv env_out_of_memory 0 1 (some get_request) ERR_OK World.init
        = .error w1 ∧
      mallocs w1.trace = [(19, none)] ∧ w1.heap = [] ∧
      frees w1.trace = [] ∧ pbuf_frees w1.trace = [] := by
  rw [tcp_server_recv_no_memory _ _ _ _ _ _ rfl]
  exact ⟨_, rfl, rfl, rfl, rfl, rfl⟩

/-- C10, amended: for every receive event with a non-null packet buffer whose
request copy `malloc` grants, the calls of `tcp_server_recv` contain one
`malloc` (of `p->len + 1` bytes), one `free`, of that block, and one
`pbuf_free`, of the packet; the calls end with `tcp_write`, `tcp_output`,
`free`, `pbuf_free` in this order, and the heap on return is the heap on entry.
For a null packet buffer there is no `malloc`, no `free` and no `pbuf_free`. -/
theorem recv_releases_buffers (env : Env) (arg tpcb : ℕ) (p : pbuf) (err : ℤ) (w : World)
    (request : ℕ) (h : env.malloc_result (p.len + 1) = some request) :
    (∃ w1 calls before data,
      tcp_server_recv env arg tpcb (some p) err w = .ok (ERR_OK, w1) ∧
      w1.trace = w.trace ++ calls ∧
      mallocs calls = [(p.len + 1, some request)] ∧
      frees calls = [request] ∧
      pbuf_frees calls = [p] ∧
      calls = before ++ [Effect.tcp_write tpcb data data.length TCP_WRITE_FLAG_COPY,
        Effect.tcp_output tpcb, Effect.free request, Effect.pbuf_free p] ∧
      tcp_writes before = [] ∧ tcp_outputs before = [] ∧
      w1.heap = w.heap) ∧
    ∃ w1 calls,
      tcp_server_recv env arg tpcb none err w = .ok (ERR_OK, w1) ∧
      w1.trace = w.trace ++ calls ∧
      mallocs calls = [] ∧ frees calls = [] ∧ pbuf_frees calls = [] ∧
      w1.heap = w.heap := by
  refine ⟨⟨_, recv_calls env tpcb p request, (recv_calls env tpcb p request).take 6, html_of env,
    tcp_server_recv_packet env arg tpcb p err w request h, rfl, rfl, rfl, rfl, ?_, rfl, rfl, rfl⟩,
    _, _, tcp_server_recv_null env arg tpcb err w, rfl, rfl, rfl, rfl, rfl⟩
  simp [recv_calls, strlen_html_of]

/-- C10, amended, on the request `GET / HTTP/1.1`. -/
theorem recv_releases_buffers_witness :
    (env_with 876 true true).malloc_result (get_request.len + 1) = some 64 ∧
    (∃ w1 calls before data,
      tcp_server_recv (env_with 876 true true) 0 1 (some get_request) ERR_OK World.init
        = .ok (ERR_OK, w1) ∧
      w1.trace = World.init.trace ++ calls ∧
      mallocs calls = [(get_request.len + 1, some 64)] ∧
      frees calls = [64] ∧
      pbuf_frees calls = [get_request] ∧
      calls = before ++ [Effect.tcp_write 1 data data.length TCP_WRITE_FLAG_COPY,
        Effect.tcp_output 1, Effect.free 64, Effect.pbuf_free get_request] ∧
      tcp_writes before = [] ∧ tcp_outputs before = [] ∧
      w1.heap = World.init.heap) ∧
    ∃ w1 calls,
      tcp_server_recv (env_with 876 true true) 0 1 none ERR_OK World.init = .ok (ERR_OK, w1) ∧
      w1.trace = World.init.trace ++ calls ∧
      mallocs calls = [] ∧ frees calls = [] ∧ pbuf_frees calls = [] ∧
      w1.heap = World.init.heap :=
  ⟨rfl, recv_releases_buffers (env_with 876 true true) 0 1 get_request ERR_OK World.init 64 rfl⟩

end ButtonWebserver
